/-
  Verification of the mod-resolution engine in `Util/TMoI_Util_Gen.py`
  (The-Modding-of-Isaac): a shallow embedding of the `Mod` dataclass
  construction pipeline (`__post_init__`), the `ModFactory` cache, the
  Steam Workshop retry loop, and `parse_steam_datetime`, together with
  theorems settling the specification's claims about them.

  Modelling conventions:
  * `Path` objects are abstracted to natural-number identities; the
    filesystem and the network are explicit `World` data.
  * Python heap objects (`Mod` instances) live in an allocation-ordered
    list `Store.mods`; `ModFactory.MOD_LIST` is `Store.modList` (a list of
    heap indices).  Machine integers do not occur; all counters are `Nat`.
  * Exceptions are values of `PyErr`; fuel (`Nat`) bounds the unbounded
    mutual recursion of dependency resolution, `none` meaning the
    recursion exceeded the given depth.
  * `datetime.strptime` is embedded as the regex matcher CPython compiles
    for the three format strings the source uses (directives
    %d %b %Y %I %H %M %S %p %a %Z, whitespace, literals), including the
    alternation order of CPython `_strptime.TimeRE` and the final
    "unconverted data remains" check.
-/
import Mathlib

namespace TMoI

/-! ## Python `datetime` values and `strptime` -/

/-- A naive `datetime.datetime` value (the fields the program uses). -/
structure PyDateTime where
  year   : Nat
  month  : Nat
  day    : Nat
  hour   : Nat
  minute : Nat
  second : Nat
  deriving DecidableEq, Repr

/-- Numeric `strptime` directives with their CPython regex alternations. -/
inductive NumKind
  | d  -- day: `3[01]|[12]\d|0[1-9]|[1-9]`
  | I  -- 12-hour: `1[0-2]|0[1-9]|[1-9]`
  | H  -- 24-hour: `2[0-3]|[0-1]\d|\d`
  | M  -- minute: `[0-5]\d|\d`
  | S  -- second: `6[0-1]|[0-5]\d|\d`
  deriving DecidableEq, Repr

/-- Tokens of a compiled `strptime` format string. -/
inductive FmtTok
  | lit (c : Char)     -- literal character (matched case-insensitively)
  | ws                 -- a whitespace run in the format, compiled to `\s+`
  | num (k : NumKind)
  | Y                  -- four-digit year: `\d\d\d\d`
  | b                  -- abbreviated month name
  | a                  -- abbreviated weekday name (parsed, value unused)
  | p                  -- AM/PM
  | Z                  -- timezone name (UTC/GMT)
  deriving DecidableEq, Repr

/-- Compile a format string to tokens, as `_strptime.TimeRE.pattern` does:
    `%X` becomes the directive's sub-regex, whitespace becomes `\s+`, and
    any other character a literal. -/
def compileFmt : List Char → List FmtTok
  | [] => []
  | '%' :: c :: rest =>
    (match c with
     | 'd' => FmtTok.num NumKind.d
     | 'I' => FmtTok.num NumKind.I
     | 'H' => FmtTok.num NumKind.H
     | 'M' => FmtTok.num NumKind.M
     | 'S' => FmtTok.num NumKind.S
     | 'Y' => FmtTok.Y
     | 'b' => FmtTok.b
     | 'a' => FmtTok.a
     | 'p' => FmtTok.p
     | 'Z' => FmtTok.Z
     | c'  => FmtTok.lit c') :: compileFmt rest
  | c :: rest =>
    (if c.isWhitespace then FmtTok.ws else FmtTok.lit c) :: compileFmt rest

/-- Case-insensitive character comparison (the compiled regex uses
    `re.IGNORECASE`). -/
def lowerEq (x y : Char) : Bool := x.toLower = y.toLower

def digitVal (c : Char) : Nat := c.toNat - '0'.toNat

/-- First (two-digit) regex alternative of each numeric directive. -/
def numTwoOk : NumKind → Char → Char → Bool
  | NumKind.d, c1, c2 =>
    (c1 = '3' && (c2 = '0' || c2 = '1')) ||
    ((c1 = '1' || c1 = '2') && c2.isDigit) ||
    (c1 = '0' && '1' ≤ c2 && c2 ≤ '9')
  | NumKind.I, c1, c2 =>
    (c1 = '1' && (c2 = '0' || c2 = '1' || c2 = '2')) ||
    (c1 = '0' && '1' ≤ c2 && c2 ≤ '9')
  | NumKind.H, c1, c2 =>
    (c1 = '2' && '0' ≤ c2 && c2 ≤ '3') ||
    ((c1 = '0' || c1 = '1') && c2.isDigit)
  | NumKind.M, c1, c2 => ('0' ≤ c1 && c1 ≤ '5') && c2.isDigit
  | NumKind.S, c1, c2 =>
    (c1 = '6' && (c2 = '0' || c2 = '1')) ||
    (('0' ≤ c1 && c1 ≤ '5') && c2.isDigit)

/-- Final (one-digit) regex alternative of each numeric directive. -/
def numOneOk : NumKind → Char → Bool
  | NumKind.d, c => '1' ≤ c && c ≤ '9'
  | NumKind.I, c => '1' ≤ c && c ≤ '9'
  | NumKind.H, c => c.isDigit
  | NumKind.M, c => c.isDigit
  | NumKind.S, c => c.isDigit

/-- Partially filled parse result (the regex group dictionary). -/
structure Strp where
  year   : Option Nat  := none
  month  : Option Nat  := none
  day    : Option Nat  := none
  hour12 : Option Nat  := none
  hour24 : Option Nat  := none
  minute : Option Nat  := none
  second : Option Nat  := none
  isPM   : Option Bool := none
  deriving DecidableEq, Repr

def setNum (k : NumKind) (n : Nat) (acc : Strp) : Strp :=
  match k with
  | NumKind.d => { acc with day    := some n }
  | NumKind.I => { acc with hour12 := some n }
  | NumKind.H => { acc with hour24 := some n }
  | NumKind.M => { acc with minute := some n }
  | NumKind.S => { acc with second := some n }

/-- Strip `a` off the front of `s`, case-insensitively. -/
def stripAbbr : List Char → List Char → Option (List Char)
  | [], s => some s
  | _ :: _, [] => none
  | c :: a, d :: s => if lowerEq d c then stripAbbr a s else none

/-- Match one of the abbreviations (numbered from `start`) as a prefix. -/
def takeAbbr (start : Nat) (abbrs : List (List Char)) (s : List Char) :
    Option (Nat × List Char) :=
  match abbrs with
  | [] => none
  | ab :: rest =>
    match stripAbbr ab s with
    | some s' => some (start, s')
    | none => takeAbbr (start + 1) rest s

def monthAbbrs : List (List Char) :=
  [['j','a','n'], ['f','e','b'], ['m','a','r'], ['a','p','r'],
   ['m','a','y'], ['j','u','n'], ['j','u','l'], ['a','u','g'],
   ['s','e','p'], ['o','c','t'], ['n','o','v'], ['d','e','c']]

def weekdayAbbrs : List (List Char) :=
  [['m','o','n'], ['t','u','e'], ['w','e','d'], ['t','h','u'],
   ['f','r','i'], ['s','a','t'], ['s','u','n']]

def tzAbbrs : List (List Char) := [['u','t','c'], ['g','m','t']]

def dropWs : List Char → List Char
  | [] => []
  | c :: rest => if c.isWhitespace then dropWs rest else c :: rest

/-- Run the compiled format tokens over the input.  The whole input must
    be consumed (`unconverted data remains` check); numeric directives
    try the two-digit alternative first and fall back to the one-digit
    alternative, as the compiled regex alternation does. -/
def runToks : List FmtTok → List Char → Strp → Option Strp
  | [], [], acc => some acc
  | [], _ :: _, _ => none
  | FmtTok.lit c :: fts, s, acc =>
    match s with
    | d :: rest => if lowerEq d c then runToks fts rest acc else none
    | [] => none
  | FmtTok.ws :: fts, s, acc =>
    match s with
    | d :: rest => if d.isWhitespace then runToks fts (dropWs rest) acc else none
    | [] => none
  | FmtTok.Y :: fts, s, acc =>
    match s with
    | c1 :: c2 :: c3 :: c4 :: rest =>
      if c1.isDigit && c2.isDigit && c3.isDigit && c4.isDigit then
        let y := digitVal c1 * 1000 + digitVal c2 * 100 + digitVal c3 * 10 + digitVal c4
        runToks fts rest { acc with year := some y }
      else none
    | _ => none
  | FmtTok.num k :: fts, s, acc =>
    match s with
    | c1 :: c2 :: rest =>
      if numTwoOk k c1 c2 then
        match runToks fts rest (setNum k (digitVal c1 * 10 + digitVal c2) acc) with
        | some r => some r
        | none =>
          if numOneOk k c1 then runToks fts (c2 :: rest) (setNum k (digitVal c1) acc)
          else none
      else if numOneOk k c1 then runToks fts (c2 :: rest) (setNum k (digitVal c1) acc)
      else none
    | [c1] => if numOneOk k c1 then runToks fts [] (setNum k (digitVal c1) acc) else none
    | [] => none
  | FmtTok.b :: fts, s, acc =>
    match takeAbbr 1 monthAbbrs s with
    | some (m, rest) => runToks fts rest { acc with month := some m }
    | none => none
  | FmtTok.a :: fts, s, acc =>
    match takeAbbr 0 weekdayAbbrs s with
    | some (_, rest) => runToks fts rest acc
    | none => none
  | FmtTok.p :: fts, s, acc =>
    match s with
    | c1 :: c2 :: rest =>
      if lowerEq c1 'a' && lowerEq c2 'm' then runToks fts rest { acc with isPM := some false }
      else if lowerEq c1 'p' && lowerEq c2 'm' then runToks fts rest { acc with isPM := some true }
      else none
    | _ => none
  | FmtTok.Z :: fts, s, acc =>
    match takeAbbr 0 tzAbbrs s with
    | some (_, rest) => runToks fts rest acc
    | none => none

def isLeap (y : Nat) : Bool := y % 4 = 0 && (y % 100 ≠ 0 || y % 400 = 0)

def daysInMonth (y m : Nat) : Nat :=
  match m with
  | 2 => if isLeap y then 29 else 28
  | 4 => 30 | 6 => 30 | 9 => 30 | 11 => 30
  | _ => 31

/-- Assemble the matched groups into a datetime, as `_strptime` does:
    defaults 1900-01-01 00:00:00; `%I` combined with `%p`; the
    `datetime` constructor then validates the calendar date and the
    seconds range (raising `ValueError`, i.e. `none`, otherwise). -/
def strpToDateTime (p : Strp) : Option PyDateTime :=
  let year := p.year.getD 1900
  let month := p.month.getD 1
  let day := p.day.getD 1
  let hour :=
    match p.hour24 with
    | some h => h
    | none =>
      match p.hour12, p.isPM with
      | some h, some true => if h = 12 then 12 else h + 12
      | some h, some false => if h = 12 then 0 else h
      | some h, none => h
      | none, _ => 0
  let minute := p.minute.getD 0
  let second := p.second.getD 0
  if day ≤ daysInMonth year month && second ≤ 59 then
    some { year := year, month := month, day := day,
           hour := hour, minute := minute, second := second }
  else none

/-- `datetime.strptime(s, fmt)`, `none` standing for the raised
    `ValueError`. -/
def strptime (fmt : String) (s : String) : Option PyDateTime :=
  match runToks (compileFmt fmt.toList) s.toList {} with
  | some p => strpToDateTime p
  | none => none

/-! Globals of `TMoI_Util_Gen.py` used by the embedded code. -/

def STEAM_DATETIME_FORMAT_STR : String := "%d %b, %Y @ %I:%M%p"

def STEAM_DATETIME_FORMAT_STR_NO_YEAR : String := "%d %b @ %I:%M%p"

/-- The inline format string of the `Retry-After` HTTP-date branch
    (line 290 of the source). -/
def RETRY_AFTER_DATE_FORMAT : String := "%a, %d %b %Y %H:%M:%S %Z"

def DEFAULT_RETRY_TIME : Int := 5

def MAX_REQUEST_RETRIES : Nat := 5

/-- `datetime.replace(year=y)` re-validates the calendar date and raises
    `ValueError` (here `none`) on an invalid result. -/
def pyReplaceYear (y : Nat) (dt : PyDateTime) : Option PyDateTime :=
  if dt.day ≤ daysInMonth y dt.month then some { dt with year := y } else none

/-- `parse_steam_datetime`: try the year-bearing Steam format, fall back
    to the year-less format with the current year substituted; `none`
    stands for the `ValueError` raised when both formats fail.
    `nowYear` is `datetime.now().year`. -/
def parse_steam_datetime (nowYear : Nat) (s : String) : Option PyDateTime :=
  match strptime STEAM_DATETIME_FORMAT_STR s with
  | some dt => some dt
  | none =>
    match strptime STEAM_DATETIME_FORMAT_STR_NO_YEAR s with
    | some dt => pyReplaceYear nowYear dt
    | none => none

/-! ## Data model

`Path` identities are abstract naturals.  A `Mod` record mirrors the
fields of the `Mod` dataclass; heap aliasing (`dependents` back-references,
the shared `MOD_LIST`) is modelled by a `Store` holding all allocated
`Mod` objects in allocation order, heap references being indices. -/

/-- `ref : Union[int, Path]` — a mod install directory or a workshop
    addon id. -/
inductive Ref
  | path (p : Nat)
  | wid (n : Nat)
  deriving DecidableEq, Repr

/-- The `ModAuthor` dataclass. -/
structure ModAuthor where
  name     : Option String := none
  url      : Option String := none
  icon_url : Option String := none
  deriving DecidableEq, Repr

abbrev ModId := Nat

/-- The `Mod` dataclass fields (init vars, metadata fields, internal
    fields) with their dataclass defaults. -/
structure Mod where
  ref          : Ref
  mods_path    : Option Nat := none
  name         : Option String := none
  id           : Option String := none
  size         : Option String := none
  version      : Option String := none
  uploaded     : Option PyDateTime := none
  last_updated : Option PyDateTime := none
  authors      : Option (List ModAuthor) := none
  description  : Option String := none
  visibility   : Option String := none
  preview      : Option String := none
  position     : Int := -1
  dependencies : List ModId := []
  dependents   : List ModId := []
  metadata_ok  : Bool := true
  workshop_ok  : Bool := true
  deriving DecidableEq, Repr

instance : Inhabited Mod := ⟨{ ref := Ref.wid 0 }⟩

/-- The heap of allocated `Mod` objects plus `ModFactory.MOD_LIST`
    (the registry cache), which holds references into the heap. -/
structure Store where
  mods    : List Mod := []
  modList : List ModId := []
  deriving DecidableEq, Repr

def Store.empty : Store := {}

def Store.getMod (st : Store) (i : ModId) : Mod := st.mods.getD i default

def Store.setMod (st : Store) (i : ModId) (f : Mod → Mod) : Store :=
  { st with mods := st.mods.set i (f (st.getMod i)) }

/-- Allocate a fresh `Mod` object (the dataclass `__init__` runs before
    `__post_init__`); its heap reference is the current heap size. -/
def Store.alloc (st : Store) (ref : Ref) (mp : Option Nat) : Store :=
  { st with mods := st.mods ++ [{ ref := ref, mods_path := mp }] }

/-- A parsed `metadata.xml` tree restricted to the elements the program
    reads.  `none`: the element is absent (so `.find(x).text` raises
    `AttributeError`); `some t`: the element exists with text `t`
    (`t = none` when the element is empty). -/
structure MetaTree where
  name        : Option (Option String) := none
  id          : Option (Option String) := none
  description : Option (Option String) := none
  version     : Option (Option String) := none
  visibility  : Option (Option String) := none
  deriving DecidableEq, Repr

/-- One filesystem entry: a candidate mod directory (or a plain file,
    when `isDir` is false).  `metaParse = none` models `lxml` raising
    `ParseError` on `metadata.xml`. -/
structure FsEntry where
  path      : Nat
  isDir     : Bool := true
  hasMeta   : Bool := true
  metaParse : Option MetaTree := none
  deriving DecidableEq, Repr

/-- The addon page HTML as the scraper's CSS selectors see it.
    `requiredItems` holds, per required-item anchor, the addon id parsed
    from its `href` (`none` when that extraction raises and `item_ref`
    keeps its previous value).  Author blocks are modelled with their
    name text present. -/
structure Html where
  parses          : Bool := true
  errorCtn        : Bool := false
  detailsLeft     : List String := []
  detailsRight    : List String := []
  previewMain     : Option String := none
  previewFallback : Option String := none
  requiredItems   : List (Option Nat) := []
  authors         : List (String × Option String × Option String) := []
  deriving DecidableEq, Repr

/-- One HTTP response from `requests.get`. -/
structure Resp where
  status     : Nat
  retryAfter : Option String := none
  content    : Html := {}
  deriving DecidableEq, Repr

/-- The external world: filesystem entries, `iterdir` listings of mods
    roots, the network (response per addon-id string and per value of the
    retry counter at the time of the request), and the current year. -/
structure World where
  entries  : List FsEntry := []
  children : List (Nat × List Nat) := []
  net      : String → Nat → Resp := fun _ _ => { status := 404 }
  nowYear  : Nat := 2021

def World.findEntry (w : World) (p : Nat) : Option FsEntry :=
  w.entries.find? (fun e => e.path = p)

def World.isDir (w : World) (p : Nat) : Bool :=
  match w.findEntry p with
  | some e => e.isDir
  | none => false

def World.hasMeta (w : World) (p : Nat) : Bool :=
  match w.findEntry p with
  | some e => e.hasMeta
  | none => false

def World.metaOf (w : World) (p : Nat) : Option MetaTree :=
  match w.findEntry p with
  | some e => e.metaParse
  | none => none

/-- `mods_path.iterdir()`, in filesystem order. -/
def World.iterdir (w : World) (p : Nat) : List Nat :=
  match w.children.find? (fun c => c.1 = p) with
  | some c => c.2
  | none => []

/-! ## Errors -/

/-- The distinct `ModInstanceCreationError` raise sites. -/
inductive CreationReason
  | notADirectory (p : Nat)       -- `__post_init__`: path ref is not a directory
  | noMetadata (p : Nat)          -- `__post_init__`: no `metadata.xml` in the directory
  | metaParseFailed (p : Nat)     -- `__post_init__`: `metadata.xml` fails to parse
  | invalidModsPath               -- `__post_init__`: int ref without a usable mods dir
  | notFoundLocally               -- `__post_init__`: search ended with `meta_tree is None`
  | factoryNotADirectory (p : Nat)  -- `__build_singular`: path ref is not a directory
  | factoryFailed (r : CreationReason)  -- `__build_singular` catches and re-raises
  deriving DecidableEq, Repr

/-- Python exceptions the embedded code can raise.  `creation` is
    `ModInstanceCreationError`; the others are ordinary exceptions that
    no handler in the program catches. -/
inductive PyErr
  | creation (r : CreationReason)
  | typeError        -- `__build_singular` line 571 on a cache hit
  | valueError       -- unparsable Retry-After header / Steam datetime
  | attributeError   -- `timedelta` has no attribute `second` (line 290)
  | nameError        -- `addon_html` referenced while unassigned (line 333)
  deriving DecidableEq, Repr

/-! ## The factory cache -/

/-- Python `m.ref == ref`: `Path`s compare by value; an `int` never
    equals a `Path`. -/
def refEq : Ref → Ref → Bool
  | Ref.path p, Ref.path q => p = q
  | Ref.wid m, Ref.wid n => m = n
  | _, _ => false

/-- Python `m.id == ref`: `m.id` is `None` or a `str`, while `ref` is an
    `int` or a `Path`; a `str` equals neither an `int` nor a `Path`, and
    `None` equals neither, so this comparison is `False` no matter the
    values. -/
def idEqRef : Option String → Ref → Bool
  | _, _ => false

/-- `next((m for m in ModFactory.MOD_LIST if m.ref == ref or m.id == ref), None)`. -/
def cacheLookup (st : Store) (ref : Ref) : Option ModId :=
  st.modList.find? (fun i => refEq (st.getMod i).ref ref || idEqRef (st.getMod i).id ref)

/-! ## Local metadata resolution -/

/-- The body of the id-search loop of `__post_init__` (lines 199-227),
    threading the `meta_tree` local through the iterations: a successful
    parse overwrites it, an id mismatch resets it to `None`, and skipped
    iterations (non-directory, missing file, parse failure, missing `id`
    element) leave it untouched — including the tree just parsed when
    the `id` element is missing. -/
def searchLoop (w : World) (idStr : String) :
    List Nat → Option MetaTree → Option MetaTree
  | [], acc => acc
  | f :: fs, acc =>
    if !(w.isDir f) then searchLoop w idStr fs acc
    else if !(w.hasMeta f) then searchLoop w idStr fs acc
    else
      match w.metaOf f with
      | none => searchLoop w idStr fs acc       -- ParseError: continue, `meta_tree` untouched
      | some t =>
        match t.id with
        | none => searchLoop w idStr fs (some t)  -- AttributeError on `.text`: continue, `meta_tree = t`
        | some txt =>
          if txt = some idStr then some t         -- id matches: break
          else searchLoop w idStr fs none         -- mismatch: `meta_tree = None`, continue

/-- Lines 164-233 of `__post_init__`: obtain the parsed `metadata.xml`
    tree for the ref, or the `ModInstanceCreationError` raised. -/
def resolveMetaTree (w : World) (ref : Ref) (modsPath : Option Nat) :
    Except CreationReason MetaTree :=
  match ref with
  | Ref.path p =>
    if !(w.isDir p) then .error (.notADirectory p)
    else if !(w.hasMeta p) then .error (.noMetadata p)
    else
      match w.metaOf p with
      | none => .error (.metaParseFailed p)
      | some t => .ok t
  | Ref.wid n =>
    match modsPath with
    | none => .error .invalidModsPath
    | some mp =>
      if !(w.isDir mp) then .error .invalidModsPath
      else
        match searchLoop w (toString n) (w.iterdir mp) none with
        | some t => .ok t
        | none => .error .notFoundLocally

/-- Lines 236-252: extract `name, id, description, version, visibility`
    from the metadata tree, in that order; a missing `id` element
    additionally clears `workshop_ok`, other missing elements only log
    a warning. -/
def extractAttrs (t : MetaTree) (self : Mod) : Mod :=
  let self := match t.name with | some txt => { self with name := txt } | none => self
  let self := match t.id with
              | some txt => { self with id := txt }
              | none => { self with workshop_ok := false }
  let self := match t.description with | some txt => { self with description := txt } | none => self
  let self := match t.version with | some txt => { self with version := txt } | none => self
  match t.visibility with | some txt => { self with visibility := txt } | none => self

/-- `if self.workshop_ok and self.id:` (line 257) — `self.id` is truthy
    exactly when it is a non-empty string. -/
def getIdStr (self : Mod) : Option String :=
  if self.workshop_ok then
    match self.id with
    | some s => if s.isEmpty then none else some s
    | none => none
  else none

/-! ## The HTTP retry loop -/

/-- `int(s)` on a string: surrounding whitespace allowed, an optional
    sign, then decimal digits (`none` is the raised `ValueError`). -/
def natDigits? : List Char → Option Nat
  | [] => none
  | cs => go cs 0
where
  go : List Char → Nat → Option Nat
    | [], acc => some acc
    | c :: rest, acc => if c.isDigit then go rest (acc * 10 + digitVal c) else none

def pyInt? (s : String) : Option Int :=
  let cs := (dropWs (dropWs s.toList).reverse).reverse
  match cs with
  | '+' :: ds => (natDigits? ds).map Int.ofNat
  | '-' :: ds => (natDigits? ds).map (fun n => -(Int.ofNat n))
  | ds => (natDigits? ds).map Int.ofNat

/-- The retry delay computation of the 429 branch (lines 284-294).  On a
    `Retry-After` header that is not an integer, the code computes
    `(strptime(header, fmt) - now()).second`, and a `timedelta` has no
    attribute `second`, so a well-formed HTTP date raises
    `AttributeError`; a header that parses as neither raises the
    `strptime` `ValueError` from inside the handler. -/
def retryDelay (page : Resp) : Except PyErr Int :=
  if page.status = 429 then
    match page.retryAfter with
    | none => .ok DEFAULT_RETRY_TIME
    | some h =>
      match pyInt? h with
      | some n => .ok n
      | none =>
        match strptime RETRY_AFTER_DATE_FORMAT h with
        | some _ => .error .attributeError   -- `timedelta` has no attribute `second`
        | none => .error .valueError
  else .ok DEFAULT_RETRY_TIME                -- any other non-2xx: default delay

/-- The request/retry `while` loop (lines 265-319).  `attempts` is
    `retry_attempts`; the returned `Resp` is the `addon_page` local after
    the loop and the returned list records the argument of each `sleep`
    call.  `remaining` is not part of the source: it is the structural
    image of the bounded loop counter (the loop re-enters only while
    `retry_attempts <= MAX_REQUEST_RETRIES` holds after an increment, so
    at most `MAX_REQUEST_RETRIES` times); the entry call passes
    `MAX_REQUEST_RETRIES`, which keeps the `remaining = 0` cutoff branch
    unreachable. -/
def fetchLoop (w : World) (idStr : String) :
    Nat → Nat → List Int → Except PyErr (Resp × Nat × List Int)
  | remaining, attempts, sleeps =>
    let page := w.net idStr attempts
    if page.status < 400 || 600 ≤ page.status then
      .ok (page, attempts, sleeps)                 -- raise_for_status() is None: break
    else if page.status = 404 then
      .ok (page, attempts, sleeps)                 -- nonexistent addon page: break
    else
      match retryDelay page with
      | .error e => .error e
      | .ok d =>
        if d < 0 then .error .valueError           -- time.sleep rejects negative values
        else if attempts + 1 ≤ MAX_REQUEST_RETRIES then
          match remaining with
          | r + 1 => fetchLoop w idStr r (attempts + 1) (sleeps ++ [d])
          | 0 => .ok (page, attempts + 1, sleeps ++ [d])  -- unreachable from the entry call
        else .ok (page, attempts + 1, sleeps ++ [d])

/-! ## Scraping and dependency linking -/

/-- Lines 347-363: walk the zipped label/value detail blocks and assign
    `last_updated`, `uploaded` and `size` by label text.  A date value
    that `parse_steam_datetime` rejects raises `ValueError`. -/
def detailsFold (nowYear : Nat) : List (String × String) → Mod → Except PyErr Mod
  | [], self => .ok self
  | (l, v) :: rest, self =>
    if l = "Updated " then
      match parse_steam_datetime nowYear v with
      | some dt => detailsFold nowYear rest { self with last_updated := some dt }
      | none => .error .valueError
    else if l = "Posted " then
      match parse_steam_datetime nowYear v with
      | some dt => detailsFold nowYear rest { self with uploaded := some dt }
      | none => .error .valueError
    else if l = "File Size " then detailsFold nowYear rest { self with size := some v }
    else detailsFold nowYear rest self

/-- Lines 368-373: the primary preview-image selector, falling back to
    the secondary one; on neither, only a warning is logged. -/
def setPreview (html : Html) (self : Mod) : Mod :=
  match html.previewMain with
  | some u => { self with preview := some u }
  | none =>
    match html.previewFallback with
    | some u => { self with preview := some u }
    | none => self

/-- Lines 419-432: the author triples (name text, profile href, avatar
    src) become `ModAuthor`s; the name text is `lstrip`ped. -/
def setAuthors (html : Html) (self : Mod) : Mod :=
  let auths := html.authors.map (fun t =>
    ({ name := some t.1.trimLeft, url := t.2.1, icon_url := t.2.2 } : ModAuthor))
  { self with authors := some auths }

/-- Lines 403-406: `new_dep.dependents.append(self)` on the heap and
    `self.dependencies.append(new_dep)` on the mod under construction —
    always together.  The subsequent one-hop circular-dependency check
    (line 409) only emits a log warning and changes no state. -/
def linkDep (selfId depId : ModId) (st : Store) (self : Mod) : Store × Mod :=
  (st.setMod depId (fun m => { m with dependents := m.dependents ++ [selfId] }),
   { self with dependencies := self.dependencies ++ [depId] })

/-- The value of the `item_ref` local after one anchor's href
    extraction: a successfully parsed id replaces it, a failed extraction
    leaves the previous value. -/
def itemRefAfter : Option Nat → Option Nat → Option Nat
  | some n, _ => some n
  | none, prev => prev

/-- Lines 378-414: the required-items loop.  A stale `item_ref` survives
    a failed href extraction, and when no value was ever bound, reading
    it raises `UnboundLocalError` (a `NameError`).  A dependency build
    failing with `ModInstanceCreationError` leaves `new_dep` as `None`
    and the link is skipped; any other exception propagates. -/
def depsFold (recurse : Store → Ref → Option Nat → Option (Store × Except PyErr ModId))
    (selfId : ModId) (modsPath : Option Nat) :
    List (Option Nat) → Option Nat → Store → Mod →
    Option (Store × Mod × Except PyErr Unit)
  | [], _, st, self => some (st, self, .ok ())
  | anchor :: rest, itemRef0, st, self =>
    match itemRefAfter anchor itemRef0 with
    | none => some (st, self, .error .nameError)
    | some n =>
      match recurse st (Ref.wid n) modsPath with
      | none => none
      | some (st', .error (.creation _)) =>
        depsFold recurse selfId modsPath rest (some n) st' self
      | some (st', .error e) => some (st', self, .error e)
      | some (st', .ok depId) =>
        depsFold recurse selfId modsPath rest (some n)
          (linkDep selfId depId st' self).1 (linkDep selfId depId st' self).2

/-! ## Construction, registration, and the factory -/

/-- `__register_self` (lines 441-447): `if self.register_to and
    isinstance(self.register_to, list)` — `register_to` is always
    `ModFactory.MOD_LIST` itself here, and an *empty* list is falsy in
    Python, so the append is skipped whenever the registry is empty. -/
def registerSelf (st : Store) (selfId : ModId) : Store :=
  if st.modList.isEmpty then st else { st with modList := st.modList ++ [selfId] }

/-- Write the completed object back to its heap slot, then run
    `__register_self`.  (During construction no other code reads that
    slot: the object is reachable only from its construction frame until
    it is registered.) -/
def Store.finish (st : Store) (selfId : ModId) (self : Mod) : Store :=
  registerSelf { st with mods := st.mods.set selfId self } selfId

/-- How `__post_init__` continues after its store-independent prefix:
    it raises `e`, or completes with the object state `self` and no
    workshop scrape, or proceeds to the required-items loop with anchors
    `anchors`, page `html` and object state `self`. -/
inductive PostPlan
  | fail (e : PyErr)
  | done (self : Mod)
  | deps (anchors : List (Option Nat)) (html : Html) (self : Mod)
  deriving DecidableEq, Repr

/-- Lines 340-432 up to the required-items loop: with `self.workshop_ok`
    re-checked, extract the detail blocks (a bad date raising
    `ValueError`) and the preview image, then hand over to the
    required-items loop; with it cleared, scraping is aborted and the
    object is complete. -/
def scrapePhase (w : World) (self : Mod) (html : Html) : PostPlan :=
  if self.workshop_ok then
    match detailsFold w.nowYear (html.detailsLeft.zip html.detailsRight) self with
    | .error e => .fail e
    | .ok selfD => .deps html.requiredItems html (setPreview html selfD)
  else .done self

/-- Lines 326-338: parse the body of the final `addon_page` (on failure
    the handler clears `workshop_ok` and the error-page check then reads
    the never-assigned `addon_html` local, raising `UnboundLocalError`),
    and clear `workshop_ok` when the body is the Steam error page. -/
def parsePhase (w : World) (self : Mod) (page : Resp) : PostPlan :=
  if !page.content.parses then .fail .nameError
  else
    scrapePhase w
      (if page.content.errorCtn then { self with workshop_ok := false } else self)
      page.content

/-- Lines 259-324: run the request/retry loop for the addon page; an
    exhausted retry budget only clears `workshop_ok`. -/
def remotePhase (w : World) (idStr : String) (self : Mod) : PostPlan :=
  match fetchLoop w idStr MAX_REQUEST_RETRIES 0 [] with
  | .error e => .fail e
  | .ok (page, attempts, _) =>
    parsePhase w
      (if MAX_REQUEST_RETRIES < attempts then { self with workshop_ok := false } else self)
      page

/-- The store-independent prefix of `__post_init__` (lines 159-432):
    local metadata resolution, attribute extraction (the `self` local is
    written out in full where the source names it), then the remote
    phases.  None of these steps read or write the heap or `MOD_LIST`,
    so they are factored out of the store threading. -/
def postPlan (w : World) (ref : Ref) (modsPath : Option Nat) : PostPlan :=
  match resolveMetaTree w ref modsPath with
  | .error r => .fail (.creation r)
  | .ok t =>
    match getIdStr (extractAttrs t { ref := ref, mods_path := modsPath }) with
    | none => .done (extractAttrs t { ref := ref, mods_path := modsPath })
    | some idStr => remotePhase w idStr (extractAttrs t { ref := ref, mods_path := modsPath })

/-- `Mod.__post_init__` (together with the dataclass `__init__`
    allocation).  `recurse` is the `ModFactory.build` call used for
    dependency resolution; the fresh object's heap slot is the heap size
    at entry. -/
def modPostInit (recurse : Store → Ref → Option Nat → Option (Store × Except PyErr ModId))
    (w : World) (st0 : Store) (ref : Ref) (modsPath : Option Nat) :
    Option (Store × Except PyErr ModId) :=
  match postPlan w ref modsPath with
  | .fail e => some (st0.alloc ref modsPath, .error e)
  | .done self => some ((st0.alloc ref modsPath).finish st0.mods.length self, .ok st0.mods.length)
  | .deps anchors html self =>
    match depsFold recurse st0.mods.length modsPath anchors none (st0.alloc ref modsPath) self with
    | none => none
    | some (st', _, .error e) => some (st', .error e)
    | some (st', selfL, .ok _) =>
      some (st'.finish st0.mods.length (setAuthors html selfL), .ok st0.mods.length)

/-- A `ModInstanceCreationError` caught by `__build_singular` is raised
    again with a wrapper message (lines 574-576). -/
def wrapErr : PyErr → PyErr
  | .creation r => .creation (.factoryFailed r)
  | e => e

/-- The exception behaviour of the `try` block of `__build_singular`:
    construction outcomes pass through, except that a
    `ModInstanceCreationError` is re-raised wrapped. -/
def wrapCreation : Option (Store × Except PyErr ModId) → Option (Store × Except PyErr ModId)
  | none => none
  | some (st, .ok m) => some (st, .ok m)
  | some (st, .error e) => some (st, .error (wrapErr e))

/-- The factory's path sanity check (lines 556-558). -/
def factoryPathCheck (w : World) : Ref → Option CreationReason
  | Ref.path p => if !(w.isDir p) then some (.factoryNotADirectory p) else none
  | Ref.wid _ => none

/-- `ModFactory.__build_singular`, fuelled: `none` means construction
    recursed deeper than `fuel` (in Python, unbounded recursion).  On a
    cache hit the code reaches the `raise TypeError` branch, because
    `isinstance(exist_mod, Mod.__class__)` tests against `Mod`'s
    metaclass (the type of the class object, or of the `logger.catch`
    wrapper around it) — which no `Mod` instance is an instance of. -/
def buildSingular : Nat → World → Store → Ref → Option Nat → Option (Store × Except PyErr ModId)
  | 0, _, _, _, _ => none
  | Nat.succ fuel, w, st, ref, modsPath =>
    match factoryPathCheck w ref with
    | some r => some (st, .error (.creation r))
    | none =>
      match cacheLookup st ref with
      | some _ => some (st, .error .typeError)
      | none => wrapCreation (modPostInit (buildSingular fuel w) w st ref modsPath)

/-- `ModFactory.__build_multiple`: build each ref via the single-ref
    path; a `ModInstanceCreationError` skips the ref, any other
    exception propagates. -/
def build_multiple (fuel : Nat) (w : World) :
    Store → List Ref → Option Nat → Option (Store × Except PyErr (List ModId))
  | st, [], _ => some (st, .ok [])
  | st, r :: rs, mp =>
    match buildSingular fuel w st r mp with
    | none => none
    | some (st', .error (.creation _)) => build_multiple fuel w st' rs mp
    | some (st', .error e) => some (st', .error e)
    | some (st', .ok m) =>
      match build_multiple fuel w st' rs mp with
      | none => none
      | some (st'', .error e) => some (st'', .error e)
      | some (st'', .ok ms) => some (st'', .ok (m :: ms))

/-! ## Concrete scenarios for the claim theorems -/

/-- One valid mod directory whose metadata carries a name but no `id`
    element, so no workshop fetch is attempted. -/
def w1 : World :=
  { entries := [{ path := 0, metaParse := some { name := some (some "Alpha") } }] }

/-- The registry state after the first `build(path 0)` on `w1`. -/
def st1C1 : Store :=
  ((buildSingular 5 w1 Store.empty (Ref.path 0) none).getD (Store.empty, Except.ok 0)).1

/-- The registry state after a second `build(path 0)` on `w1`. -/
def st2C1 : Store :=
  ((buildSingular 5 w1 st1C1 (Ref.path 0) none).getD (Store.empty, Except.ok 0)).1

/-- A store in which a mod with ref `path 0` is already registered
    (what `MOD_LIST` was meant to contain after a first build). -/
def seededStore : Store := { mods := [{ ref := Ref.path 0 }], modList := [0] }

/-- A two-mod dependency cycle: directory 10 has workshop id "1" and its
    addon page requires item 2; directory 11 has id "2" and its page
    requires item 1; 99 is the mods root holding both. -/
def w2 : World :=
  { entries := [{ path := 99, hasMeta := false },
                { path := 10, metaParse := some { name := some (some "A"), id := some (some "1") } },
                { path := 11, metaParse := some { name := some (some "B"), id := some (some "2") } }],
    children := [(99, [10, 11])],
    net := fun idStr _ =>
      if idStr = "1" then { status := 200, content := { requiredItems := [some 2] } }
      else if idStr = "2" then { status := 200, content := { requiredItems := [some 1] } }
      else { status := 404 } }

/-- A mod whose local metadata is fine but whose addon page body fails
    HTML parsing. -/
def w3 : World :=
  { entries := [{ path := 0, metaParse := some { name := some (some "M"), id := some (some "7") } }],
    net := fun _ _ => { status := 200, content := { parses := false } } }

/-- A mod whose addon page always answers 429 with an HTTP-date
    `Retry-After` header. -/
def w4 : World :=
  { entries := [{ path := 0, metaParse := some { name := some (some "M"), id := some (some "9") } }],
    net := fun _ _ => { status := 429, retryAfter := some "Wed, 21 Oct 2015 07:28:00 GMT" } }

/-- A network that answers the first request with 429 and
    `Retry-After: 5`, then succeeds. -/
def wRetryOnce : World :=
  { net := fun _ k => if k = 0 then { status := 429, retryAfter := some "5" } else { status := 200 } }

/-- A mod whose addon page always answers 429 with `Retry-After: 5`,
    exhausting the retry budget; the 429 bodies parse as HTML with no
    error marker. -/
def w4b : World :=
  { entries := [{ path := 0, metaParse := some { name := some (some "M"), id := some (some "9") } }],
    net := fun _ _ => { status := 429, retryAfter := some "5" } }

/-- A mods root (50) with a single subdirectory (20) whose metadata
    parses but has no `id` element. -/
def w5 : World :=
  { entries := [{ path := 50, hasMeta := false },
                { path := 20, metaParse := some { name := some (some "Stale") } }],
    children := [(50, [20])] }

/-- The state after `build(123, mods_path = 50)` on `w5`. -/
def st5 : Store :=
  ((buildSingular 5 w5 Store.empty (Ref.wid 123) (some 50)).getD (Store.empty, Except.ok 0)).1

/-- Directory 10 (id "1") whose page requires item 2; directory 11
    (id "2") with no further requirements; mods root 99. -/
def w6 : World :=
  { entries := [{ path := 99, hasMeta := false },
                { path := 10, metaParse := some { name := some (some "A"), id := some (some "1") } },
                { path := 11, metaParse := some { name := some (some "B"), id := some (some "2") } }],
    children := [(99, [10, 11])],
    net := fun idStr _ =>
      if idStr = "1" then { status := 200, content := { requiredItems := [some 2] } }
      else if idStr = "2" then { status := 200 }
      else { status := 404 } }

/-- The state after `build(path 10, mods_path = 99)` on `w6`. -/
def st6 : Store :=
  ((buildSingular 5 w6 Store.empty (Ref.path 10) (some 99)).getD (Store.empty, Except.ok 0)).1

/-- A directory (3) that exists but contains no `metadata.xml`. -/
def wC8 : World := { entries := [{ path := 3, hasMeta := false }] }

/-- Three refs for the batch claim: valid mod dirs 30 and 32 (no
    workshop ids), and 31 with no `metadata.xml` (NotInstalled). -/
def w9 : World :=
  { entries := [{ path := 30, metaParse := some { name := some (some "A") } },
                { path := 31, hasMeta := false },
                { path := 32, metaParse := some { name := some (some "C") } }] }

/-- The state after the batch build on `w9`. -/
def st9 : Store :=
  ((build_multiple 5 w9 Store.empty [Ref.path 30, Ref.path 31, Ref.path 32] none).getD
    (Store.empty, Except.ok [])).1

/-- The state after `build(path 0)` on `w4b` (retry budget exhausted). -/
def st4b : Store :=
  ((buildSingular 5 w4b Store.empty (Ref.path 0) none).getD (Store.empty, Except.ok 0)).1

/-- A mod whose addon listing is gone: the page answers 404 and its body
    parses to the Steam error page (the `div.error_ctn` marker). -/
def wNotFound : World :=
  { entries := [{ path := 0, metaParse := some { name := some (some "M"), id := some (some "7") } }],
    net := fun _ _ => { status := 404, content := { errorCtn := true } } }

/-- The state after `build(path 0)` on `wNotFound`. -/
def stNF : Store :=
  ((buildSingular 5 wNotFound Store.empty (Ref.path 0) none).getD (Store.empty, Except.ok 0)).1

/-- The claim-C10 invariant: every allocated `Mod` object still has the
    initial `position` value `-1`. -/
def posInv (st : Store) : Prop := ∀ m ∈ st.mods, m.position = -1

/-- The object a post-init plan will complete with (if any) still has
    `position = -1`. -/
def planPos : PostPlan → Prop
  | .fail _ => True
  | .done self => self.position = -1
  | .deps _ _ self => self.position = -1

/-! ## General helper lemmas -/

theorem cacheLookup_empty (st : Store) (h : st.modList = []) (ref : Ref) :
    cacheLookup st ref = none := by
  unfold cacheLookup
  rw [h]
  rfl

theorem alloc_modList (st : Store) (ref : Ref) (mp : Option Nat) :
    (st.alloc ref mp).modList = st.modList := rfl

theorem getD_mem (l : List Mod) : ∀ (i : Nat) (d : Mod), i < l.length → l.getD i d ∈ l := by
  induction l with
  | nil => intro i d h; exact absurd h (by simp)
  | cons x xs ih =>
    intro i d h
    cases i with
    | zero => exact List.mem_cons_self x xs
    | succ i => exact List.mem_cons_of_mem x (ih i d (Nat.lt_of_succ_lt_succ h))

theorem getD_ge_length (l : List Mod) : ∀ (i : Nat) (d : Mod), l.length ≤ i →
    l.getD i d = d := by
  induction l with
  | nil => intro i d _; cases i <;> rfl
  | cons x xs ih =>
    intro i d h
    cases i with
    | zero => exact absurd h (by simp)
    | succ i => exact ih i d (Nat.le_of_succ_le_succ h)

theorem getD_set_self (l : List Mod) : ∀ (i : Nat) (a d : Mod), i < l.length →
    (l.set i a).getD i d = a := by
  induction l with
  | nil => intro i a d h; exact absurd h (by simp)
  | cons x xs ih =>
    intro i a d h
    cases i with
    | zero => rfl
    | succ i => exact ih i a d (Nat.lt_of_succ_lt_succ h)

theorem getD_append (l : List Mod) : ∀ (l2 : List Mod) (i : Nat) (d : Mod), i < l.length →
    (l ++ l2).getD i d = l.getD i d := by
  induction l with
  | nil => intro l2 i d h; exact absurd h (by simp)
  | cons x xs ih =>
    intro l2 i d h
    cases i with
    | zero => rfl
    | succ i => exact ih l2 i d (Nat.lt_of_succ_lt_succ h)

theorem find?_cong : ∀ (l : List Nat) (f g : Nat → Bool),
    (∀ i ∈ l, f i = g i) → l.find? f = l.find? g
  | [], _, _, _ => rfl
  | x :: xs, f, g, h => by
    rw [List.find?_cons, List.find?_cons, h x (List.mem_cons_self x xs)]
    cases g x
    · exact find?_cong xs f g (fun i hi => h i (List.mem_cons_of_mem x hi))
    · rfl

theorem getMod_alloc (st : Store) (ref : Ref) (mp : Option Nat) (i : ModId)
    (h : i < st.mods.length) : (st.alloc ref mp).getMod i = st.getMod i :=
  getD_append st.mods _ i default h

theorem cacheLookup_alloc (st : Store) (ref ref2 : Ref) (mp : Option Nat)
    (hwf : ∀ i ∈ st.modList, i < st.mods.length) :
    cacheLookup (st.alloc ref2 mp) ref = cacheLookup st ref := by
  unfold cacheLookup
  exact find?_cong st.modList _ _ (fun i hi => by rw [getMod_alloc st ref2 mp i (hwf i hi)])

/-! ## Claim theorems -/

/-- Claim C1 (code evaluation): identity dedup does not hold.  Two
    builds of the same ref on the same registry return two distinct
    `Mod` objects (heap indices 0 and 1) and `MOD_LIST` stays empty,
    because `__register_self` guards the append with the truthiness of
    the (empty) registry list itself.  Moreover, on a registry that does
    contain a matching entry, `__build_singular` raises `TypeError`
    instead of returning the cached instance, because
    `isinstance(exist_mod, Mod.__class__)` tests against the metaclass. -/
theorem build_dedup_returns_fresh_object :
    buildSingular 5 w1 Store.empty (Ref.path 0) none = some (st1C1, Except.ok 0) ∧
    buildSingular 5 w1 st1C1 (Ref.path 0) none = some (st2C1, Except.ok 1) ∧
    st1C1.modList = [] ∧ st2C1.modList = [] ∧ st2C1.mods.length = 2 ∧
    buildSingular 1 w1 seededStore (Ref.path 0) none =
      some (seededStore, Except.error PyErr.typeError) :=
  ⟨rfl, rfl, rfl, rfl, rfl, rfl⟩

/-- Claim C3 (code evaluation): a fetched page body that fails HTML
    parsing aborts construction with an exception (the error-page check
    reads the never-assigned `addon_html` local), instead of only
    clearing `workshop_ok`.  By contrast, a removed listing (404 plus
    error-page body) and an exhausted retry budget are tolerated exactly
    as the claim says: the build completes, `workshop_ok` is false and
    the remote fields keep their defaults. -/
theorem html_parse_failure_raises :
    buildSingular 5 w3 Store.empty (Ref.path 0) none =
      some (Store.empty.alloc (Ref.path 0) none, Except.error PyErr.nameError) ∧
    buildSingular 5 wNotFound Store.empty (Ref.path 0) none = some (stNF, Except.ok 0) ∧
    (stNF.getMod 0).workshop_ok = false ∧
    (stNF.getMod 0).size = none ∧ (stNF.getMod 0).uploaded = none ∧
    (stNF.getMod 0).last_updated = none ∧ (stNF.getMod 0).authors = none ∧
    (stNF.getMod 0).preview = none ∧ (stNF.getMod 0).dependencies = [] :=
  ⟨rfl, rfl, rfl, rfl, rfl, rfl, rfl, rfl, rfl⟩

/-- Claim C4 (code evaluation): a 429 whose `Retry-After` header is an
    HTTP date aborts the whole build with `AttributeError` (the code
    reads `.second` off a `timedelta`), instead of sleeping the converted
    delay.  The integer-seconds path behaves as claimed: `Retry-After: 5`
    yields exactly one retry after a sleep of 5, and an exhausted retry
    budget completes the build with `workshop_ok` false and no
    exception. -/
theorem retry_after_http_date_raises :
    buildSingular 5 w4 Store.empty (Ref.path 0) none =
      some (Store.empty.alloc (Ref.path 0) none, Except.error PyErr.attributeError) ∧
    fetchLoop wRetryOnce "9" MAX_REQUEST_RETRIES 0 [] =
      Except.ok ({ status := 200 }, 1, [5]) ∧
    buildSingular 5 w4b Store.empty (Ref.path 0) none = some (st4b, Except.ok 0) ∧
    (st4b.getMod 0).workshop_ok = false :=
  ⟨rfl, rfl, rfl, rfl⟩

/-- Claim C5 (code evaluation): searching the mods root for catalog id
    123, the only subdirectory's metadata lacks an `id` element; the
    claim says it is skipped and the build fails with a not-found error,
    but the `meta_tree` local still holds that subdirectory's tree after
    the loop, so the build succeeds using the id-less metadata. -/
theorem search_by_id_uses_stale_tree :
    searchLoop w5 "123" (w5.iterdir 50) none = some { name := some (some "Stale") } ∧
    buildSingular 5 w5 Store.empty (Ref.wid 123) (some 50) = some (st5, Except.ok 0) ∧
    (st5.getMod 0).name = some "Stale" ∧ (st5.getMod 0).workshop_ok = false :=
  ⟨rfl, rfl, rfl, rfl⟩

/-- C2 helper: one unfolding step of `__build_singular` for a ref that
    misses the cache and whose post-init plan reaches the dependency
    loop with a single anchor whose recursive build exhausts the
    recursion budget. -/
theorem buildSingular_cycle_step (fuel : Nat) (w : World) (st : Store) (ref : Ref)
    (mp : Option Nat) (n : Nat) (html : Html) (self : Mod)
    (hpc : factoryPathCheck w ref = none)
    (hcl : cacheLookup st ref = none)
    (hplan : postPlan w ref mp = PostPlan.deps [some n] html self)
    (hrec : buildSingular fuel w (st.alloc ref mp) (Ref.wid n) mp = none) :
    buildSingular (fuel + 1) w st ref mp = none := by
  show buildSingular (Nat.succ fuel) w st ref mp = none
  simp only [buildSingular, hpc, hcl, modPostInit, hplan, depsFold, itemRefAfter, hrec,
    wrapCreation]

/-- C2 helper: neither mod of the two-mod cycle can be built by workshop
    id within any recursion budget while the registry list is empty —
    and it always is, since nothing ever registers. -/
theorem twoCycleAux : ∀ n : Nat,
    (∀ st : Store, st.modList = [] → buildSingular n w2 st (Ref.wid 1) (some 99) = none) ∧
    (∀ st : Store, st.modList = [] → buildSingular n w2 st (Ref.wid 2) (some 99) = none) := by
  intro n
  induction n with
  | zero => exact ⟨fun _ _ => rfl, fun _ _ => rfl⟩
  | succ n ih =>
    refine ⟨fun st h => ?_, fun st h => ?_⟩
    · exact buildSingular_cycle_step n w2 st (Ref.wid 1) (some 99) 2 _ _ rfl
        (cacheLookup_empty st h _) rfl
        (ih.2 (st.alloc (Ref.wid 1) (some 99)) (by rw [alloc_modList]; exact h))
    · exact buildSingular_cycle_step n w2 st (Ref.wid 2) (some 99) 1 _ _ rfl
        (cacheLookup_empty st h _) rfl
        (ih.1 (st.alloc (Ref.wid 2) (some 99)) (by rw [alloc_modList]; exact h))

/-- C2 counterexample: the claim as stated is false — on the two-mod
    cycle, `build` of either mod does not complete; at the concrete
    recursion budget 30 (far above what two mods need) both builds still
    exhaust it. -/
theorem two_cycle_builds_exhaust_budget_30 :
    buildSingular 30 w2 Store.empty (Ref.path 10) (some 99) = none ∧
    buildSingular 30 w2 Store.empty (Ref.path 11) (some 99) = none :=
  ⟨rfl, rfl⟩

/-- Claim C2 (amended): if A depends on B and B depends on A, the builds
    of A and of B terminate for NO recursion budget: the new node is
    registered only after dependency resolution — and in fact never,
    because `__register_self` skips an empty (falsy) registry list — so
    the re-entrant lookup misses and the mutual recursion is unbounded;
    no `CircularDependency` warning is recorded anywhere (the one-hop
    check only logs, and is unreachable on a true cycle). -/
theorem two_cycle_build_never_terminates (n : Nat) (st : Store) (h : st.modList = []) :
    buildSingular n w2 st (Ref.path 10) (some 99) = none ∧
    buildSingular n w2 st (Ref.path 11) (some 99) = none := by
  cases n with
  | zero => exact ⟨rfl, rfl⟩
  | succ n =>
    constructor
    · exact buildSingular_cycle_step n w2 st (Ref.path 10) (some 99) 2 _ _ rfl
        (cacheLookup_empty st h _) rfl
        ((twoCycleAux n).2 (st.alloc (Ref.path 10) (some 99)) (by rw [alloc_modList]; exact h))
    · exact buildSingular_cycle_step n w2 st (Ref.path 11) (some 99) 1 _ _ rfl
        (cacheLookup_empty st h _) rfl
        ((twoCycleAux n).1 (st.alloc (Ref.path 11) (some 99)) (by rw [alloc_modList]; exact h))

/-- Witness for C2's amended theorem at a concrete budget and store. -/
theorem two_cycle_build_never_terminates_witness :
    buildSingular 7 w2 Store.empty (Ref.path 10) (some 99) = none ∧
    buildSingular 7 w2 Store.empty (Ref.path 11) (some 99) = none :=
  two_cycle_build_never_terminates 7 Store.empty rfl

/-- Claim C7: `parse_steam_datetime` tries the year-bearing Steam format
    first (any string it accepts is returned as parsed), and otherwise
    falls back to the year-less format with the current year substituted;
    the two sample strings parse exactly as the claim states, for every
    current year. -/
theorem steam_datetime_parsing :
    (∀ (y : Nat) (s : String) (dt : PyDateTime),
        strptime STEAM_DATETIME_FORMAT_STR s = some dt →
        parse_steam_datetime y s = some dt) ∧
    (∀ y : Nat, parse_steam_datetime y "31 Mar, 2021 @ 6:48AM" =
        some { year := 2021, month := 3, day := 31, hour := 6, minute := 48, second := 0 }) ∧
    (∀ y : Nat, parse_steam_datetime y "31 Mar @ 6:48AM" =
        some { year := y, month := 3, day := 31, hour := 6, minute := 48, second := 0 }) := by
  refine ⟨fun y s dt h => ?_, fun y => rfl, fun y => rfl⟩
  unfold parse_steam_datetime
  rw [h]

/-- Witness for C7 at a concrete year and string. -/
theorem steam_datetime_parsing_witness :
    parse_steam_datetime 2026 "31 Mar, 2021 @ 6:48AM" =
      some { year := 2021, month := 3, day := 31, hour := 6, minute := 48, second := 0 } :=
  steam_datetime_parsing.1 2026 "31 Mar, 2021 @ 6:48AM" _ rfl

theorem getMod_setMod_self (st : Store) (i : ModId) (f : Mod → Mod)
    (h : i < st.mods.length) : (st.setMod i f).getMod i = f (st.getMod i) :=
  getD_set_self st.mods i (f (st.getMod i)) default h

/-- Claim C6: dependency edges are inserted as a consistent pair — the
    link step always appends the dependency to the constructing mod's
    `dependencies` AND the constructing mod to the dependency's
    `dependents` (first conjunct, for any store in which the dependency
    is allocated); end-to-end, building A (directory 10) whose remote
    record lists B resolves B and leaves both containments in the final
    store. -/
theorem edge_symmetry :
    (∀ (selfId depId : ModId) (st : Store) (self : Mod), depId < st.mods.length →
        depId ∈ ((linkDep selfId depId st self).2).dependencies ∧
        selfId ∈ (((linkDep selfId depId st self).1).getMod depId).dependents) ∧
    buildSingular 5 w6 Store.empty (Ref.path 10) (some 99) = some (st6, Except.ok 0) ∧
    (st6.getMod 0).dependencies = [1] ∧ (st6.getMod 1).dependents = [0] ∧
    (st6.getMod 1).ref = Ref.wid 2 := by
  refine ⟨fun selfId depId st self h => ⟨?_, ?_⟩, rfl, rfl, rfl, rfl⟩
  · simp only [linkDep]
    exact List.mem_append_right _ (by simp)
  · simp only [linkDep]
    rw [getMod_setMod_self st depId _ h]
    exact List.mem_append_right _ (by simp)

/-- Witness for C6's general conjunct at a concrete store. -/
theorem edge_symmetry_witness :
    1 ∈ ((linkDep 0 1 ({ mods := [default, default] } : Store) default).2).dependencies ∧
    0 ∈ (((linkDep 0 1 ({ mods := [default, default] } : Store) default).1).getMod 1).dependents :=
  edge_symmetry.1 0 1 ({ mods := [default, default] } : Store) default (by decide)

/-- Claim C8: building a directory that exists but holds no metadata
    file fails with the (re-raised) `ModInstanceCreationError` and
    caches nothing: the registry list is unchanged and a subsequent
    lookup of that path still misses. -/
theorem missing_metadata_not_cached (fuel : Nat) (w : World) (st : Store) (p : Nat)
    (mp : Option Nat) (hdir : w.isDir p = true) (hmeta : w.hasMeta p = false)
    (hcl : cacheLookup st (Ref.path p) = none)
    (hwf : ∀ i ∈ st.modList, i < st.mods.length) :
    buildSingular (fuel + 1) w st (Ref.path p) mp =
      some (st.alloc (Ref.path p) mp,
        Except.error (PyErr.creation (CreationReason.factoryFailed (CreationReason.noMetadata p)))) ∧
    (st.alloc (Ref.path p) mp).modList = st.modList ∧
    cacheLookup (st.alloc (Ref.path p) mp) (Ref.path p) = none := by
  refine ⟨?_, rfl, ?_⟩
  · show buildSingular (Nat.succ fuel) w st (Ref.path p) mp = _
    simp [buildSingular, factoryPathCheck, hdir, hcl, modPostInit, postPlan,
      resolveMetaTree, hmeta, wrapCreation, wrapErr]
  · rw [cacheLookup_alloc st (Ref.path p) (Ref.path p) mp hwf]
    exact hcl

/-- Witness for C8 at a concrete world and the empty registry. -/
theorem missing_metadata_not_cached_witness :
    buildSingular 1 wC8 Store.empty (Ref.path 3) none =
      some (Store.empty.alloc (Ref.path 3) none,
        Except.error (PyErr.creation (CreationReason.factoryFailed (CreationReason.noMetadata 3)))) ∧
    (Store.empty.alloc (Ref.path 3) none).modList = Store.empty.modList ∧
    cacheLookup (Store.empty.alloc (Ref.path 3) none) (Ref.path 3) = none :=
  missing_metadata_not_cached 0 wC8 Store.empty 3 none rfl rfl rfl (by simp [Store.empty])

/-- Claim C9: the batch build swallows a `ModInstanceCreationError` of
    one ref and still builds the remaining refs (first conjunct), and on
    `[A, B, C]` with B not installed it returns exactly the mods built
    from A and C, in input order. -/
theorem batch_partial_success :
    (∀ (fuel : Nat) (w : World) (st : Store) (mp : Option Nat) (r : Ref) (rs : List Ref)
        (st2 : Store) (cr : CreationReason),
        buildSingular fuel w st r mp = some (st2, Except.error (PyErr.creation cr)) →
        build_multiple fuel w st (r :: rs) mp = build_multiple fuel w st2 rs mp) ∧
    build_multiple 5 w9 Store.empty [Ref.path 30, Ref.path 31, Ref.path 32] none =
      some (st9, Except.ok [0, 2]) ∧
    (st9.getMod 0).ref = Ref.path 30 ∧ (st9.getMod 2).ref = Ref.path 32 ∧
    (st9.getMod 0).name = some "A" ∧ (st9.getMod 2).name = some "C" := by
  refine ⟨fun fuel w st mp r rs st2 cr h => ?_, rfl, rfl, rfl, rfl, rfl⟩
  simp only [build_multiple, h]

/-- Witness for C9's general conjunct at a concrete failing ref. -/
theorem batch_partial_success_witness :
    build_multiple 5 w9 Store.empty [Ref.path 31] none =
      build_multiple 5 w9 (Store.empty.alloc (Ref.path 31) none) [] none :=
  batch_partial_success.1 5 w9 Store.empty none (Ref.path 31) []
    (Store.empty.alloc (Ref.path 31) none)
    (CreationReason.factoryFailed (CreationReason.noMetadata 31)) rfl

/-! C10 helper lemmas: no step of construction ever writes `position`. -/

theorem extractAttrs_position (t : MetaTree) (s : Mod) :
    (extractAttrs t s).position = s.position := by
  unfold extractAttrs
  cases t.name <;> cases t.id <;> cases t.description <;> cases t.version <;>
    cases t.visibility <;> rfl

theorem detailsFold_position (y : Nat) (l : List (String × String)) :
    ∀ (s s' : Mod), detailsFold y l s = Except.ok s' → s'.position = s.position := by
  induction l with
  | nil => intro s s' h; cases h; rfl
  | cons p rest ih =>
    rcases p with ⟨lb, v⟩
    intro s s' h
    unfold detailsFold at h
    split at h
    · split at h
      · have hr := ih _ _ h
        exact hr
      · exact Except.noConfusion h
    · split at h
      · split at h
        · have hr := ih _ _ h
          exact hr
        · exact Except.noConfusion h
      · split at h
        · have hr := ih _ _ h
          exact hr
        · exact ih _ _ h

theorem setPreview_position (html : Html) (s : Mod) :
    (setPreview html s).position = s.position := by
  unfold setPreview
  cases html.previewMain with
  | some u => rfl
  | none =>
    cases html.previewFallback with
    | some u => rfl
    | none => rfl

theorem setAuthors_position (html : Html) (s : Mod) :
    (setAuthors html s).position = s.position := rfl

theorem scrapePhase_position (w : World) (self : Mod) (html : Html)
    (h : self.position = -1) : planPos (scrapePhase w self html) := by
  unfold scrapePhase
  split
  · split
    · trivial
    · rename_i selfD heq
      show (setPreview html selfD).position = -1
      rw [setPreview_position, detailsFold_position _ _ _ _ heq]
      exact h
  · exact h

theorem parsePhase_position (w : World) (self : Mod) (page : Resp)
    (h : self.position = -1) : planPos (parsePhase w self page) := by
  unfold parsePhase
  split
  · trivial
  · apply scrapePhase_position
    split
    · exact h
    · exact h

theorem remotePhase_position (w : World) (idStr : String) (self : Mod)
    (h : self.position = -1) : planPos (remotePhase w idStr self) := by
  unfold remotePhase
  split
  · trivial
  · apply parsePhase_position
    split
    · exact h
    · exact h

theorem postPlan_position (w : World) (ref : Ref) (mp : Option Nat) :
    planPos (postPlan w ref mp) := by
  unfold postPlan
  split
  · trivial
  · split
    · show (extractAttrs _ _).position = -1
      rw [extractAttrs_position]
    · apply remotePhase_position
      rw [extractAttrs_position]

theorem posInv_getMod (st : Store) (hst : posInv st) (i : ModId) :
    (st.getMod i).position = -1 := by
  rcases Nat.lt_or_ge i st.mods.length with hlt | hge
  · exact hst _ (getD_mem st.mods i default hlt)
  · unfold Store.getMod
    rw [getD_ge_length st.mods i default hge]
    rfl

theorem posInv_setMod (st : Store) (i : ModId) (f : Mod → Mod)
    (hf : ∀ m, (f m).position = m.position) (hst : posInv st) :
    posInv (st.setMod i f) := by
  intro m hm
  rcases List.mem_or_eq_of_mem_set hm with hmem | heq
  · exact hst m hmem
  · subst heq
    rw [hf]
    exact posInv_getMod st hst i

theorem posInv_alloc (st : Store) (ref : Ref) (mp : Option Nat) (hst : posInv st) :
    posInv (st.alloc ref mp) := by
  intro m hm
  rcases List.mem_append.mp hm with hmem | hmem
  · exact hst m hmem
  · rw [List.mem_singleton.mp hmem]

theorem registerSelf_mods (st : Store) (i : ModId) :
    (registerSelf st i).mods = st.mods := by
  unfold registerSelf
  split <;> rfl

theorem posInv_finish (st : Store) (i : ModId) (self : Mod)
    (hself : self.position = -1) (hst : posInv st) : posInv (st.finish i self) := by
  intro m hm
  rw [Store.finish, registerSelf_mods] at hm
  rcases List.mem_or_eq_of_mem_set hm with hmem | heq
  · exact hst m hmem
  · rw [heq]
    exact hself

theorem linkDep_position (selfId depId : ModId) (st : Store) (self : Mod) :
    ((linkDep selfId depId st self).2).position = self.position := rfl

theorem linkDep_posInv (selfId depId : ModId) (st : Store) (self : Mod)
    (hst : posInv st) : posInv (linkDep selfId depId st self).1 :=
  posInv_setMod st depId _ (fun _ => rfl) hst

theorem depsFold_posInv
    (recurse : Store → Ref → Option Nat → Option (Store × Except PyErr ModId))
    (hrec : ∀ st ref mp stm, posInv st → recurse st ref mp = some stm → posInv stm.1)
    (selfId : ModId) (mp : Option Nat) (anchors : List (Option Nat)) :
    ∀ (itemRef : Option Nat) (st : Store) (self : Mod)
      (out : Store × Mod × Except PyErr Unit),
      posInv st → self.position = -1 →
      depsFold recurse selfId mp anchors itemRef st self = some out →
      posInv out.1 ∧ out.2.1.position = -1 := by
  induction anchors with
  | nil =>
    intro itemRef st self out hst hself h
    cases h
    exact ⟨hst, hself⟩
  | cons anchor rest ih =>
    intro itemRef st self out hst hself h
    unfold depsFold at h
    split at h
    · cases h
      exact ⟨hst, hself⟩
    · rename_i n
      split at h
      · exact Option.noConfusion h
      · rename_i st2 cr heq
        exact ih _ _ _ _ (hrec _ _ _ _ hst heq) hself h
      · rename_i st2 e heq
        cases h
        exact ⟨hrec _ _ _ _ hst heq, hself⟩
      · rename_i st2 depId heq
        refine ih _ _ _ _ (linkDep_posInv selfId depId st2 self (hrec _ _ _ _ hst heq)) ?_ h
        rw [linkDep_position]
        exact hself

theorem wrapCreation_store (o : Option (Store × Except PyErr ModId))
    (stm : Store × Except PyErr ModId) (h : wrapCreation o = some stm) :
    ∃ e2, o = some (stm.1, e2) := by
  match o with
  | none => exact Option.noConfusion h
  | some (st2, Except.ok m) =>
    cases h
    exact ⟨Except.ok m, rfl⟩
  | some (st2, Except.error e) =>
    cases h
    exact ⟨Except.error e, rfl⟩

theorem modPostInit_posInv
    (recurse : Store → Ref → Option Nat → Option (Store × Except PyErr ModId))
    (hrec : ∀ st ref mp stm, posInv st → recurse st ref mp = some stm → posInv stm.1)
    (w : World) (st0 : Store) (ref : Ref) (mp : Option Nat)
    (stm : Store × Except PyErr ModId) (hst : posInv st0)
    (h : modPostInit recurse w st0 ref mp = some stm) : posInv stm.1 := by
  have hplan := postPlan_position w ref mp
  unfold modPostInit at h
  split at h
  · cases h
    exact posInv_alloc st0 ref mp hst
  · rename_i self heq
    cases h
    rw [heq] at hplan
    exact posInv_finish _ _ _ hplan (posInv_alloc st0 ref mp hst)
  · rename_i anchors html self heq
    rw [heq] at hplan
    split at h
    · exact Option.noConfusion h
    · rename_i st2 selfX e hdeps
      cases h
      exact (depsFold_posInv recurse hrec _ mp anchors _ _ _ _
        (posInv_alloc st0 ref mp hst) hplan hdeps).1
    · rename_i st2 selfL hdeps
      cases h
      have hd := depsFold_posInv recurse hrec _ mp anchors _ _ _ _
        (posInv_alloc st0 ref mp hst) hplan hdeps
      refine posInv_finish _ _ _ ?_ hd.1
      rw [setAuthors_position]
      exact hd.2

theorem buildSingular_posInv :
    ∀ (fuel : Nat) (w : World) (st : Store) (ref : Ref) (mp : Option Nat)
      (stm : Store × Except PyErr ModId), posInv st →
      buildSingular fuel w st ref mp = some stm → posInv stm.1 := by
  intro fuel
  induction fuel with
  | zero => intro w st ref mp stm hst h; exact Option.noConfusion h
  | succ fuel ih =>
    intro w st ref mp stm hst h
    unfold buildSingular at h
    split at h
    · cases h
      exact hst
    · split at h
      · cases h
        exact hst
      · obtain ⟨e2, h2⟩ := wrapCreation_store _ _ h
        exact modPostInit_posInv (buildSingular fuel w)
          (fun st' r m stm' hst' hh => ih w st' r m stm' hst' hh)
          w st ref mp (stm.1, e2) hst h2

theorem build_multiple_posInv (fuel : Nat) (w : World) (refs : List Ref) :
    ∀ (st : Store) (mp : Option Nat) (stm : Store × Except PyErr (List ModId)),
      posInv st → build_multiple fuel w st refs mp = some stm → posInv stm.1 := by
  induction refs with
  | nil =>
    intro st mp stm hst h
    cases h
    exact hst
  | cons r rs ih =>
    intro st mp stm hst h
    unfold build_multiple at h
    split at h
    · exact Option.noConfusion h
    · rename_i st2 cr heq
      exact ih st2 mp stm (buildSingular_posInv fuel w st r mp _ hst heq) h
    · rename_i st2 e heq
      cases h
      exact buildSingular_posInv fuel w st r mp _ hst heq
    · rename_i st2 m heq
      have hst2 := buildSingular_posInv fuel w st r mp _ hst heq
      split at h
      · exact Option.noConfusion h
      · rename_i st3 e heq2
        cases h
        exact ih st2 mp (st3, Except.error e) hst2 heq2
      · rename_i st3 ms heq2
        cases h
        exact ih st2 mp (st3, Except.ok ms) hst2 heq2

/-- Claim C10: `position` is never assigned.  Both build operations
    preserve the invariant that every allocated `Mod` has `position`
    `-1` (no construction or linking step writes the field, and no
    ordering pass exists), so after any sequence of builds starting from
    the empty registry every mod — in particular every mod returned —
    still has `position = -1`. -/
theorem position_never_assigned :
    (∀ (fuel : Nat) (w : World) (st : Store) (ref : Ref) (mp : Option Nat)
        (stm : Store × Except PyErr ModId), posInv st →
        buildSingular fuel w st ref mp = some stm → posInv stm.1) ∧
    (∀ (fuel : Nat) (w : World) (st : Store) (refs : List Ref) (mp : Option Nat)
        (stm : Store × Except PyErr (List ModId)), posInv st →
        build_multiple fuel w st refs mp = some stm → posInv stm.1) ∧
    (∀ (st : Store) (i : ModId), posInv st → (st.getMod i).position = -1) ∧
    posInv Store.empty :=
  ⟨buildSingular_posInv,
   fun fuel w st refs mp => build_multiple_posInv fuel w refs st mp,
   fun st i hst => posInv_getMod st hst i,
   fun m hm => absurd hm (List.not_mem_nil m)⟩

/-- Witness for C10 on the concrete `w6` build. -/
theorem position_never_assigned_witness : posInv st6 :=
  position_never_assigned.1 5 w6 Store.empty (Ref.path 10) (some 99) (st6, Except.ok 0)
    (fun m hm => absurd hm (List.not_mem_nil m)) rfl

end TMoI
